import Mathlib

/-!
Verification of the Tightlock GA4 Measurement Protocol destination
(`src/dags/destinations/ga4mp.py`), the shared run-result datatype
(`src/dags/utils.py`) and the Airflow client (`src/tightlock_api/app/clients.py`).

The Python code is shallowly embedded: every network interaction is supplied as
an oracle (the response the remote endpoint would produce), exceptions become an
explicit `Outcome` type, and machine behaviour that matters (e.g. the
`self.log` attribute that `Destination` never sets, or the uncaught `KeyError`
when a 200 response body lacks the `validationMessages` key) is modelled
faithfully rather than repaired.
-/

namespace Tightlock

/-- Modelled from the spec: the members of `errors.ErrorNameIDMap` used by
`ga4mp.py` (the `errors` module is not part of the sources at hand; the spec
describes it as a fixed enumerated set of canonical error codes, one per known
invalid field or path, plus a generic invalid-values code and
retryable/non-retryable transport codes). Python enum members are pairwise
distinct, which the inductive captures. -/
inductive ErrorNameIDMap
  | GA4_HOOK_ERROR_VALUE_REQUIRED_CLIENT_ID
  | GA4_HOOK_ERROR_VALUE_INVALID_USER_ID
  | GA4_HOOK_ERROR_VALUE_INVALID_TIMESTAMP_MICROS
  | GA4_HOOK_ERROR_VALUE_INVALID_USER_PROPERTIES
  | GA4_HOOK_ERROR_VALUE_INVALID_NON_PERSONALIZED_ADS
  | GA4_HOOK_ERROR_VALUE_INVALID_EVENTS
  | GA4_HOOK_ERROR_VALUE_INVALID_EVENTS_PARAMS
  | GA4_HOOK_ERROR_VALUE_INVALID_EVENTS_PARAMS_ITEMS
  | GA4_HOOK_ERROR_INVALID_VALUES
  | RETRIABLE_GA4_HOOK_ERROR_HTTP_ERROR
  | NON_RETRIABLE_ERROR_EVENT_NOT_SENT
  | RETRIABLE_GA_HOOK_ERROR_HTTP_ERROR
  deriving DecidableEq

/-- Python exceptions that the ga4mp / clients code can raise without catching
them anywhere (they are not `DataOutConnectorValueError` /
`DataOutConnectorSendUnsuccessfulError`, so the `except` clauses miss them). -/
inductive PyExn
  | keyError
  | attributeError
  | literalEvalError
  deriving DecidableEq

/-- Result of running a piece of Python code: normal return, a raised
classified error (`DataOutConnectorValueError` or
`DataOutConnectorSendUnsuccessfulError`, both carrying an `error_num`), or an
uncaught builtin exception. The JSON-decode branch of
`_parse_validate_result` raises with `error_num = ....value` (the integer value
of the enum member); since the value determines the member we identify both
with the same `ErrorNameIDMap` constructor. -/
inductive Outcome (α : Type)
  | ok (a : α)
  | classified (error_num : ErrorNameIDMap)
  | uncaught (e : PyExn)
  deriving DecidableEq

/-- Python `charsPrefixOf n h` is true when the char list `n` is an initial
segment of `h`; building block for the `in` operator on strings. -/
def charsPrefixOf : List Char → List Char → Bool
  | [], _ => true
  | _ :: _, [] => false
  | a :: as, b :: bs => a == b && charsPrefixOf as bs

/-- Occurrence of `needle` somewhere inside `haystack` (as char lists). -/
def charsContains (needle : List Char) : List Char → Bool
  | [] => charsPrefixOf needle []
  | b :: bs => charsPrefixOf needle (b :: bs) || charsContains needle bs

/-- Python `needle in haystack` for strings (substring containment). -/
def pyIn (needle haystack : String) : Bool :=
  charsContains needle.toList haystack.toList

theorem charsPrefixOf_iff (n : List Char) :
    ∀ h, charsPrefixOf n h = true ↔ n <+: h := by
  induction n with
  | nil => intro h; simp [charsPrefixOf]
  | cons a as ih =>
    intro h
    cases h with
    | nil => simp [charsPrefixOf]
    | cons b bs => simp [charsPrefixOf, List.cons_prefix_cons, ih bs]

/-- Sanity for the translation of the Python `in` operator: `pyIn n h` holds
exactly when the characters of `n` occur contiguously inside `h`. -/
theorem pyIn_iff_infix (needle haystack : String) :
    pyIn needle haystack = true ↔ needle.toList <:+: haystack.toList := by
  rw [pyIn]
  generalize needle.toList = n
  generalize haystack.toList = h
  induction h with
  | nil => simp [charsContains, charsPrefixOf_iff]
  | cons b bs ih =>
    rw [charsContains, List.infix_cons_iff, Bool.or_eq_true, charsPrefixOf_iff, ih]

/-- The `_ERROR_TYPES` immutabledict of `ga4mp.py` (lines 68-77), in insertion
order; Python dict iteration preserves this order. -/
def ERROR_TYPES : List (String × ErrorNameIDMap) :=
  [("client_id", .GA4_HOOK_ERROR_VALUE_REQUIRED_CLIENT_ID),
   ("user_id", .GA4_HOOK_ERROR_VALUE_INVALID_USER_ID),
   ("timestamp_micros", .GA4_HOOK_ERROR_VALUE_INVALID_TIMESTAMP_MICROS),
   ("user_properties", .GA4_HOOK_ERROR_VALUE_INVALID_USER_PROPERTIES),
   ("non_personalized_ads", .GA4_HOOK_ERROR_VALUE_INVALID_NON_PERSONALIZED_ADS),
   ("events", .GA4_HOOK_ERROR_VALUE_INVALID_EVENTS),
   ("events.params", .GA4_HOOK_ERROR_VALUE_INVALID_EVENTS_PARAMS),
   ("events.params.items", .GA4_HOOK_ERROR_VALUE_INVALID_EVENTS_PARAMS_ITEMS)]

/-- The `for property_name in _ERROR_TYPES` loop of `_parse_validate_result`
(lines 209-211): first entry whose key equals `field_path` or occurs inside
`description` wins; `none` when the loop falls through. -/
def classifyLoop (field_path description : String) :
    List (String × ErrorNameIDMap) → Option ErrorNameIDMap
  | [] => none
  | (property_name, code) :: rest =>
    if field_path == property_name || pyIn property_name description then some code
    else classifyLoop field_path description rest

/-- Lines 209-219 of `ga4mp.py`: the diagnostic classifier, including the
fallback `GA4_HOOK_ERROR_INVALID_VALUES` raise after the loop (the
`logging.error` side effect is not modelled). -/
def classifyDiagnostic (field_path description : String) : ErrorNameIDMap :=
  match classifyLoop field_path description ERROR_TYPES with
  | some code => code
  | none => .GA4_HOOK_ERROR_INVALID_VALUES

/-- One entry of the `validationMessages` array; `message.get(...)` defaults
missing fields to the empty string, hence the `Option`s. -/
structure ValidationMessage where
  fieldPath : Option String
  description : Option String
  deriving DecidableEq

/-- What `response.json()` / the subscript `["validationMessages"]` can see:
a body that is not JSON (`json()` raises), a JSON body that has no
`validationMessages` key (the subscript raises `KeyError`), or the parsed
message list. -/
inductive ResponseBody
  | notJson
  | noMessagesKey
  | messages (msgs : List ValidationMessage)
  deriving DecidableEq

/-- Oracle for one `requests.post` to the GA4 debug (sandbox) endpoint:
either the connection fails or a response with a status code and body comes
back. -/
inductive SandboxResult
  | connError
  | response (status_code : Nat) (body : ResponseBody)
  deriving DecidableEq

/-- `Destination._parse_validate_result` (lines 183-219). Status checks come
first; a 200 body that fails to parse raises the retriable code; a parsed body
is subscripted with `["validationMessages"]` (uncaught `KeyError` when the key
is absent); an empty message list returns normally; otherwise the first
message is classified. -/
def parse_validate_result (status_code : Nat) (body : ResponseBody) : Outcome Unit :=
  if status_code ≥ 500 then
    .classified .RETRIABLE_GA4_HOOK_ERROR_HTTP_ERROR
  else if status_code ≠ 200 then
    .classified .NON_RETRIABLE_ERROR_EVENT_NOT_SENT
  else
    match body with
    | .notJson => .classified .RETRIABLE_GA4_HOOK_ERROR_HTTP_ERROR
    | .noMessagesKey => .uncaught .keyError
    | .messages [] => .ok ()
    | .messages (message :: _) =>
      .classified (classifyDiagnostic (message.fieldPath.getD "") (message.description.getD ""))

/-- `Destination._send_validate_request` (lines 221-244): a `ConnectionError`
is re-raised as the retriable classified error, any received response is
returned unchanged. -/
def send_validate_request : SandboxResult → Outcome (Nat × ResponseBody)
  | .connError => .classified .RETRIABLE_GA4_HOOK_ERROR_HTTP_ERROR
  | .response status_code body => .ok (status_code, body)

/-- One event of the validation stage: `_send_validate_request` followed by
`_parse_validate_result` (lines 149-150). -/
def validateEvent (result : SandboxResult) : Outcome Unit :=
  match send_validate_request result with
  | .ok (status_code, body) => parse_validate_result status_code body
  | .classified c => .classified c
  | .uncaught e => .uncaught e

/-- Claim C4: for every sandbox validation response, the Validator raises
exactly the classified failure fixed for its case: connection failure,
status ≥ 500, and an unparseable 200 body raise the retriable code; any other
non-200 status raises the terminal event-not-sent code; a 200 with an empty
`validationMessages` list raises nothing; a 200 with a non-empty list raises
the classification of the first message, ignoring all further messages. -/
theorem validator_cases :
    (validateEvent .connError =
        .classified .RETRIABLE_GA4_HOOK_ERROR_HTTP_ERROR) ∧
    (∀ s b, 500 ≤ s → validateEvent (.response s b) =
        .classified .RETRIABLE_GA4_HOOK_ERROR_HTTP_ERROR) ∧
    (validateEvent (.response 200 .notJson) =
        .classified .RETRIABLE_GA4_HOOK_ERROR_HTTP_ERROR) ∧
    (∀ s b, s < 500 → s ≠ 200 → validateEvent (.response s b) =
        .classified .NON_RETRIABLE_ERROR_EVENT_NOT_SENT) ∧
    (validateEvent (.response 200 (.messages [])) = .ok ()) ∧
    (∀ m rest, validateEvent (.response 200 (.messages (m :: rest))) =
        .classified (classifyDiagnostic (m.fieldPath.getD "") (m.description.getD ""))) := by
  refine ⟨rfl, ?_, rfl, ?_, rfl, ?_⟩
  · intro s b h
    simp [validateEvent, send_validate_request, parse_validate_result, h]
  · intro s b h hne
    have h5 : ¬ s ≥ 500 := by omega
    simp [validateEvent, send_validate_request, parse_validate_result, h5, hne]
  · intro m rest
    rfl

/-- Witness for C4: the hypotheses of the quantified conjuncts are discharged
at the concrete statuses 503 and 404. -/
theorem validator_cases_witness :
    validateEvent (.response 503 .notJson) =
        .classified .RETRIABLE_GA4_HOOK_ERROR_HTTP_ERROR ∧
    validateEvent (.response 404 .notJson) =
        .classified .NON_RETRIABLE_ERROR_EVENT_NOT_SENT :=
  ⟨validator_cases.2.1 503 .notJson (by decide),
   validator_cases.2.2.2.1 404 .notJson (by decide) (by decide)⟩

/-- Claim C5: diagnostic classification is deterministic and total — it is a
function, and for every `(fieldPath, description)` pair it yields the code of
the first entry of the fixed ordered table whose canonical field name equals
the field path or occurs as a substring of the description, falling back to
the generic invalid-values code when no entry matches. -/
theorem classify_diagnostic_first_match (field_path description : String) :
    classifyDiagnostic field_path description =
      ((ERROR_TYPES.find? fun p =>
          field_path == p.fst || pyIn p.fst description).map Prod.snd).getD
        ErrorNameIDMap.GA4_HOOK_ERROR_INVALID_VALUES := by
  have key : ∀ l : List (String × ErrorNameIDMap),
      classifyLoop field_path description l =
        (l.find? fun p => field_path == p.fst || pyIn p.fst description).map Prod.snd := by
    intro l
    induction l with
    | nil => rfl
    | cons hd tl ih =>
      obtain ⟨property_name, code⟩ := hd
      by_cases h : (field_path == property_name || pyIn property_name description) = true
      · rw [classifyLoop, if_pos h]
        simp [List.find?_cons, h]
      · rw [classifyLoop, if_neg h, ih]
        simp only [List.find?_cons]
        have hb : (field_path == property_name || pyIn property_name description) = false := by
          simpa using h
        rw [hb]
  rw [classifyDiagnostic, key ERROR_TYPES]
  cases ERROR_TYPES.find? fun p => field_path == p.fst || pyIn p.fst description <;> rfl

/-- One raw activation event, restricted to the fields `ga4mp.py` reads
(`event.get(...)`); a missing key yields the default `""`, hence `Option`. -/
structure EventRecord where
  app_instance_id : Option String
  client_id : Option String
  user_id : Option String
  event_name : Option String
  engagement_time_msec : Option String
  session_id : Option String
  deriving DecidableEq

/-- The single nested entry of `payload["events"]` (lines 140-146). -/
structure GAEventEntry where
  name : String
  engagement_time_msec : String
  session_id : String
  deriving DecidableEq

/-- The wire payload built per event; exactly one of the two identity fields
is set, depending on the configured payload type. -/
structure Payload where
  app_instance_id : Option String
  client_id : Option String
  user_id : String
  non_personalized_ads : Bool
  user_properties : Option (List (String × List (String × String)))
  events : List GAEventEntry
  deriving DecidableEq

/-- The state of a constructed `Destination` (lines 90-104) that the dispatch
pipeline reads. `payload_type` is kept as the raw configured string (compared
against `"firebase"` / `"gtag"` exactly as the source does); `user_properties`
was normalised to `None` at construction when falsy (`config.get(...) or
None`); the credential fields and URLs are omitted — they only feed the URL
strings, which no claim concerns. -/
structure Destination where
  payload_type : String
  non_personalized_ads : Bool
  user_properties : Option (List (String × List (String × String)))
  debug : Bool
  deriving DecidableEq

/-- Lines 131-146 of `_get_valid_and_invalid_events`: the payload built for
one event (PayloadBuilder). -/
def buildPayload (dest : Destination) (event : EventRecord) : Payload :=
  { app_instance_id :=
      if dest.payload_type == "firebase" then some (event.app_instance_id.getD "") else none
    client_id :=
      if dest.payload_type == "gtag" then some (event.client_id.getD "") else none
    user_id := event.user_id.getD ""
    non_personalized_ads := dest.non_personalized_ads
    user_properties := dest.user_properties
    events := [{ name := event.event_name.getD ""
                 engagement_time_msec := event.engagement_time_msec.getD ""
                 session_id := event.session_id.getD "" }] }

/-- A sandbox response is well formed when a 200 body, if parsed, actually
carries the `validationMessages` key — the only situation in which the
validation stage raises an uncaught exception. -/
def wellFormedB : SandboxResult → Bool
  | .response _ .noMessagesKey => false
  | _ => true

/-- `Destination._get_valid_and_invalid_events` (lines 128-155): the loop over
`enumerate(events)`, threading the running index `i`. The sandbox oracle is
indexed by the event position. Only `DataOutConnectorValueError` is caught
(appending `(i, error.error_num)` to the invalid list); an uncaught exception
aborts the whole loop and propagates. -/
def get_valid_and_invalid_events (dest : Destination) (sandbox : Nat → SandboxResult) :
    Nat → List EventRecord →
      Outcome (List (Nat × Payload) × List (Nat × ErrorNameIDMap))
  | _, [] => .ok ([], [])
  | i, event :: rest =>
    match validateEvent (sandbox i) with
    | .ok _ =>
      match get_valid_and_invalid_events dest sandbox (i + 1) rest with
      | .ok (valid_events, invalid_indices_and_errors) =>
        .ok ((i, buildPayload dest event) :: valid_events, invalid_indices_and_errors)
      | .classified c => .classified c
      | .uncaught e => .uncaught e
    | .classified error_num =>
      match get_valid_and_invalid_events dest sandbox (i + 1) rest with
      | .ok (valid_events, invalid_indices_and_errors) =>
        .ok (valid_events, (i, error_num) :: invalid_indices_and_errors)
      | .classified c => .classified c
      | .uncaught e => .uncaught e
    | .uncaught e => .uncaught e

/-- Oracle for one `requests.post` to the production ingestion endpoint. -/
inductive ProdResult
  | connError
  | status (status_code : Nat)
  deriving DecidableEq

/-- `Destination._send_payload` (lines 246-281). When `self.debug` is set the
method evaluates `self.log.info(...)`; `Destination` never assigns a `log`
attribute (and has no base class), so the attribute lookup raises
`AttributeError` before any request is made. Otherwise one POST is issued:
status outside [200, 300) or a `ConnectionError` raises
`DataOutConnectorSendUnsuccessfulError` with the retriable code. -/
def send_payload (dest : Destination) (result : ProdResult) : Outcome Unit :=
  if dest.debug then .uncaught .attributeError
  else
    match result with
    | .connError => .classified .RETRIABLE_GA_HOOK_ERROR_HTTP_ERROR
    | .status status_code =>
      if status_code < 200 ∨ status_code ≥ 300 then
        .classified .RETRIABLE_GA_HOOK_ERROR_HTTP_ERROR
      else .ok ()

/-- Number of POSTs to the production endpoint one `_send_payload` call
issues: none in debug mode (the `AttributeError` fires before the request),
exactly one otherwise. -/
def send_payload_postCount (dest : Destination) : Nat :=
  if dest.debug then 0 else 1

/-- Attach `n` further production POSTs to a send-stage result. -/
def addPosts (n : Nat) (r : Outcome (List (Nat × ErrorNameIDMap)) × Nat) :
    Outcome (List (Nat × ErrorNameIDMap)) × Nat :=
  (r.fst, n + r.snd)

/-- The `if not dry_run` loop of `send_data` (lines 291-301): each valid
`(index, payload)` pair is sent; both classified error types are caught and
`(index, error.error_num)` is appended to the invalid list; valid entries are
never removed. The second component counts production POSTs. An uncaught
exception (debug mode) aborts the loop. -/
def sendStage (dest : Destination) (prod : Nat → ProdResult) :
    List (Nat × Payload) → List (Nat × ErrorNameIDMap) →
      Outcome (List (Nat × ErrorNameIDMap)) × Nat
  | [], invalid_indices_and_errors => (.ok invalid_indices_and_errors, 0)
  | valid_event :: rest, invalid_indices_and_errors =>
    match send_payload dest (prod valid_event.fst) with
    | .ok _ =>
      addPosts (send_payload_postCount dest)
        (sendStage dest prod rest invalid_indices_and_errors)
    | .classified error_num =>
      addPosts (send_payload_postCount dest)
        (sendStage dest prod rest
          (invalid_indices_and_errors ++ [(valid_event.fst, error_num)]))
    | .uncaught e => (.uncaught e, send_payload_postCount dest)

/-- The `RunResult` dataclass of `src/dags/utils.py` (lines 41-54). -/
structure RunResult where
  successful_hits : Nat
  failed_hits : Nat
  error_messages : List String
  dry_run : Bool
  deriving DecidableEq

/-- Python `str(error_num)` on an `ErrorNameIDMap` member. -/
def errorMessageString : ErrorNameIDMap → String
  | .GA4_HOOK_ERROR_VALUE_REQUIRED_CLIENT_ID =>
    "ErrorNameIDMap.GA4_HOOK_ERROR_VALUE_REQUIRED_CLIENT_ID"
  | .GA4_HOOK_ERROR_VALUE_INVALID_USER_ID =>
    "ErrorNameIDMap.GA4_HOOK_ERROR_VALUE_INVALID_USER_ID"
  | .GA4_HOOK_ERROR_VALUE_INVALID_TIMESTAMP_MICROS =>
    "ErrorNameIDMap.GA4_HOOK_ERROR_VALUE_INVALID_TIMESTAMP_MICROS"
  | .GA4_HOOK_ERROR_VALUE_INVALID_USER_PROPERTIES =>
    "ErrorNameIDMap.GA4_HOOK_ERROR_VALUE_INVALID_USER_PROPERTIES"
  | .GA4_HOOK_ERROR_VALUE_INVALID_NON_PERSONALIZED_ADS =>
    "ErrorNameIDMap.GA4_HOOK_ERROR_VALUE_INVALID_NON_PERSONALIZED_ADS"
  | .GA4_HOOK_ERROR_VALUE_INVALID_EVENTS =>
    "ErrorNameIDMap.GA4_HOOK_ERROR_VALUE_INVALID_EVENTS"
  | .GA4_HOOK_ERROR_VALUE_INVALID_EVENTS_PARAMS =>
    "ErrorNameIDMap.GA4_HOOK_ERROR_VALUE_INVALID_EVENTS_PARAMS"
  | .GA4_HOOK_ERROR_VALUE_INVALID_EVENTS_PARAMS_ITEMS =>
    "ErrorNameIDMap.GA4_HOOK_ERROR_VALUE_INVALID_EVENTS_PARAMS_ITEMS"
  | .GA4_HOOK_ERROR_INVALID_VALUES =>
    "ErrorNameIDMap.GA4_HOOK_ERROR_INVALID_VALUES"
  | .RETRIABLE_GA4_HOOK_ERROR_HTTP_ERROR =>
    "ErrorNameIDMap.RETRIABLE_GA4_HOOK_ERROR_HTTP_ERROR"
  | .NON_RETRIABLE_ERROR_EVENT_NOT_SENT =>
    "ErrorNameIDMap.NON_RETRIABLE_ERROR_EVENT_NOT_SENT"
  | .RETRIABLE_GA_HOOK_ERROR_HTTP_ERROR =>
    "ErrorNameIDMap.RETRIABLE_GA_HOOK_ERROR_HTTP_ERROR"

/-- Lines 316-321: the `RunResult(...)` built at the end of `send_data`. -/
def mkRunResult (valid_events : List (Nat × Payload))
    (invalid_indices_and_errors : List (Nat × ErrorNameIDMap)) (dry_run : Bool) :
    RunResult :=
  { successful_hits := valid_events.length
    failed_hits := invalid_indices_and_errors.length
    error_messages := invalid_indices_and_errors.map fun error => errorMessageString error.snd
    dry_run := dry_run }

/-- `Destination.send_data` (lines 283-323). The sandbox and production
oracles are indexed by event position; the second component counts POSTs to
the production ingestion endpoint (the dry-run branch issues none). -/
def send_data (dest : Destination) (input_data : List EventRecord)
    (sandbox : Nat → SandboxResult) (prod : Nat → ProdResult) (dry_run : Bool) :
    Outcome RunResult × Nat :=
  match get_valid_and_invalid_events dest sandbox 0 input_data with
  | .classified c => (.classified c, 0)
  | .uncaught e => (.uncaught e, 0)
  | .ok (valid_events, invalid_indices_and_errors) =>
    if dry_run then
      (.ok (mkRunResult valid_events invalid_indices_and_errors dry_run), 0)
    else
      match sendStage dest prod valid_events invalid_indices_and_errors with
      | (.ok invalid_after_send, posts) =>
        (.ok (mkRunResult valid_events invalid_after_send dry_run), posts)
      | (.classified c, posts) => (.classified c, posts)
      | (.uncaught e, posts) => (.uncaught e, posts)

/-- Whether the validation stage accepts the event at position `j` (its
`validateEvent` call returns normally). -/
def passes (sandbox : Nat → SandboxResult) (j : Nat) : Bool :=
  match validateEvent (sandbox j) with
  | .ok _ => true
  | _ => false

/-- Whether the production send for the event at position `j` raises a
classified send failure. -/
def sendFailB (dest : Destination) (prod : Nat → ProdResult) (j : Nat) : Bool :=
  match send_payload dest (prod j) with
  | .classified _ => true
  | _ => false

/-- The invalid-list entry contributed by the send stage for one valid
`(index, payload)` pair, if any. -/
def sendFail (dest : Destination) (prod : Nat → ProdResult) (ve : Nat × Payload) :
    Option (Nat × ErrorNameIDMap) :=
  match send_payload dest (prod ve.fst) with
  | .classified error_num => some (ve.fst, error_num)
  | _ => none

/-- Number of events among the first `n` positions that pass validation. -/
def passCount (sandbox : Nat → SandboxResult) (n : Nat) : Nat :=
  (List.range n).countP (passes sandbox)

/-- Number of events among the first `n` positions that fail validation. -/
def failCount (sandbox : Nat → SandboxResult) (n : Nat) : Nat :=
  (List.range n).countP fun j => ! passes sandbox j

/-- Number of events among the first `n` positions that pass validation but
whose production send raises a classified failure. -/
def sendFailCount (dest : Destination) (sandbox : Nat → SandboxResult)
    (prod : Nat → ProdResult) (n : Nat) : Nat :=
  (List.range n).countP fun j => sendFailB dest prod j && passes sandbox j

theorem validateEvent_not_uncaught {r : SandboxResult} (hwf : wellFormedB r = true) :
    ∀ e, validateEvent r ≠ Outcome.uncaught e := by
  intro e
  cases r with
  | connError => simp [validateEvent, send_validate_request]
  | response s b =>
    cases b with
    | noMessagesKey => simp [wellFormedB] at hwf
    | notJson =>
      simp only [validateEvent, send_validate_request, parse_validate_result]
      split
      · simp
      · split
        · simp
        · simp
    | messages msgs =>
      simp only [validateEvent, send_validate_request, parse_validate_result]
      rcases msgs with _ | ⟨m, rest⟩
      · split
        · simp
        · split
          · simp
          · simp
      · split
        · simp
        · split
          · simp
          · simp

theorem getValid_spec (dest : Destination) (sandbox : Nat → SandboxResult)
    (wf : ∀ j, wellFormedB (sandbox j) = true) :
    ∀ (es : List EventRecord) (i : Nat),
      ∃ valid invalid,
        get_valid_and_invalid_events dest sandbox i es = .ok (valid, invalid) ∧
        valid.map Prod.fst = (List.range' i es.length).filter (passes sandbox) ∧
        invalid.map Prod.fst =
          (List.range' i es.length).filter (fun j => ! passes sandbox j) := by
  intro es
  induction es with
  | nil =>
    intro i
    exact ⟨[], [], rfl, by simp, by simp⟩
  | cons e rest ih =>
    intro i
    obtain ⟨v, inv, hres, hv, hinv⟩ := ih (i + 1)
    rcases hcase : validateEvent (sandbox i) with u | c | ex
    · have hp : passes sandbox i = true := by simp [passes, hcase]
      refine ⟨(i, buildPayload dest e) :: v, inv, ?_, ?_, ?_⟩
      · simp only [get_valid_and_invalid_events, hcase, hres]
      · simp [List.range'_succ, hp, hv]
      · simp [List.range'_succ, hp, hinv]
    · have hp : passes sandbox i = false := by simp [passes, hcase]
      refine ⟨v, (i, c) :: inv, ?_, ?_, ?_⟩
      · simp only [get_valid_and_invalid_events, hcase, hres]
      · simp [List.range'_succ, hp, hv]
      · simp [List.range'_succ, hp, hinv]
    · exact absurd hcase (validateEvent_not_uncaught (wf i) ex)

theorem send_payload_not_uncaught (dest : Destination) (hdbg : dest.debug = false)
    (r : ProdResult) : ∀ e, send_payload dest r ≠ Outcome.uncaught e := by
  intro e
  cases r with
  | connError => simp [send_payload, hdbg]
  | status s =>
    simp only [send_payload, hdbg]
    rw [if_neg (by simp)]
    split
    · simp
    · simp

theorem sendStage_spec (dest : Destination) (prod : Nat → ProdResult)
    (hdbg : dest.debug = false) :
    ∀ (valids : List (Nat × Payload)) (invalid : List (Nat × ErrorNameIDMap)),
      sendStage dest prod valids invalid =
        (.ok (invalid ++ valids.filterMap (sendFail dest prod)), valids.length) := by
  intro valids
  induction valids with
  | nil => intro invalid; simp [sendStage]
  | cons ve rest ih =>
    intro invalid
    rcases hc : send_payload dest (prod ve.fst) with u | c | ex
    · have hnone : sendFail dest prod ve = none := by simp [sendFail, hc]
      simp [sendStage, hc, addPosts, ih, List.filterMap_cons, hnone,
        send_payload_postCount, hdbg, Nat.add_comm]
    · have hsome : sendFail dest prod ve = some (ve.fst, c) := by simp [sendFail, hc]
      simp [sendStage, hc, addPosts, ih, List.filterMap_cons, hsome,
        send_payload_postCount, hdbg, Nat.add_comm, List.append_assoc]
    · exact absurd hc (send_payload_not_uncaught dest hdbg (prod ve.fst) ex)

theorem filterMap_sendFail_length (dest : Destination) (prod : Nat → ProdResult) :
    ∀ valids : List (Nat × Payload),
      (valids.filterMap (sendFail dest prod)).length =
        (valids.map Prod.fst).countP (sendFailB dest prod) := by
  intro valids
  induction valids with
  | nil => rfl
  | cons ve rest ih =>
    rcases hc : send_payload dest (prod ve.fst) with u | c | ex
    · have h1 : sendFail dest prod ve = none := by simp [sendFail, hc]
      have h2 : sendFailB dest prod ve.fst = false := by simp [sendFailB, hc]
      simp [List.filterMap_cons, h1, List.countP_cons, h2, ih]
    · have h1 : sendFail dest prod ve = some (ve.fst, c) := by simp [sendFail, hc]
      have h2 : sendFailB dest prod ve.fst = true := by simp [sendFailB, hc]
      simp [List.filterMap_cons, h1, List.countP_cons, h2, ih]
    · have h1 : sendFail dest prod ve = none := by simp [sendFail, hc]
      have h2 : sendFailB dest prod ve.fst = false := by simp [sendFailB, hc]
      simp [List.filterMap_cons, h1, List.countP_cons, h2, ih]

theorem countP_not_add {α : Type} (p : α → Bool) (l : List α) :
    l.countP p + l.countP (fun a => ! p a) = l.length := by
  induction l with
  | nil => rfl
  | cons a l ih =>
    cases h : p a <;> simp [List.countP_cons, h] <;> omega

theorem getValid_counts (dest : Destination) (sandbox : Nat → SandboxResult)
    (prod : Nat → ProdResult) (wf : ∀ j, wellFormedB (sandbox j) = true)
    (events : List EventRecord) :
    ∃ valid invalid,
      get_valid_and_invalid_events dest sandbox 0 events = .ok (valid, invalid) ∧
      valid.map Prod.fst = (List.range events.length).filter (passes sandbox) ∧
      invalid.map Prod.fst =
        (List.range events.length).filter (fun j => ! passes sandbox j) ∧
      valid.length = passCount sandbox events.length ∧
      invalid.length = failCount sandbox events.length ∧
      (valid.filterMap (sendFail dest prod)).length =
        sendFailCount dest sandbox prod events.length := by
  obtain ⟨valid, invalid, hres, hv, hinv⟩ := getValid_spec dest sandbox wf events 0
  rw [← List.range_eq_range'] at hv hinv
  refine ⟨valid, invalid, hres, hv, hinv, ?_, ?_, ?_⟩
  · rw [← List.length_map valid Prod.fst, hv, ← List.countP_eq_length_filter]
    rfl
  · rw [← List.length_map invalid Prod.fst, hinv, ← List.countP_eq_length_filter]
    rfl
  · rw [filterMap_sendFail_length, hv, List.countP_filter]
    rfl

/-- Projection used by the claims: the pair of counters of the returned
`RunResult`, or `none` when `send_data` raised instead of returning. -/
def hitCounts (o : Outcome RunResult × Nat) : Option (Nat × Nat) :=
  match o.fst with
  | .ok rr => some (rr.successful_hits, rr.failed_hits)
  | _ => none

/-- Sum of the two counters of the returned `RunResult`, when it returned. -/
def sumHits (o : Outcome RunResult × Nat) : Option Nat :=
  match o.fst with
  | .ok rr => some (rr.successful_hits + rr.failed_hits)
  | _ => none

/-- Whether the call returned normally. -/
def isOkOutcome {α : Type} : Outcome α → Bool
  | .ok _ => true
  | _ => false

/-- A gtag destination with `debug` off, used as concrete witness input. -/
def destGtag : Destination :=
  { payload_type := "gtag", non_personalized_ads := false,
    user_properties := none, debug := false }

/-- The same destination with the `debug` config flag set. -/
def destGtagDebug : Destination :=
  { payload_type := "gtag", non_personalized_ads := false,
    user_properties := none, debug := true }

/-- A concrete event record. -/
def eventA : EventRecord :=
  { app_instance_id := none, client_id := some "c-1", user_id := none,
    event_name := some "purchase", engagement_time_msec := none,
    session_id := none }

/-- Sandbox oracle: every event validates cleanly. -/
def sandboxAllValid : Nat → SandboxResult := fun _ => .response 200 (.messages [])

/-- Sandbox oracle: every 200 response body lacks `validationMessages`. -/
def sandboxMissingKey : Nat → SandboxResult := fun _ => .response 200 .noMessagesKey

/-- Production oracle: every send gets a 503. -/
def prodAll503 : Nat → ProdResult := fun _ => .status 503

/-- Production oracle: every send gets a 204. -/
def prodAll204 : Nat → ProdResult := fun _ => .status 204

/-- Claim C1 counterexample: a batch of N = 1 event that passes sandbox
validation and whose production send then fails with status 503 (dry_run =
False) yields `RunResult(successful_hits=1, failed_hits=1)`: the sum is 2,
not N, because `send_data` appends send failures to the invalid list without
removing them from the valid list. -/
theorem send_data_sum_counterexample :
    hitCounts (send_data destGtag [eventA] sandboxAllValid prodAll503 false) =
      some (1, 1) ∧
    1 + 1 ≠ List.length [eventA] := by
  decide

/-- Claim C1 (amended): for a batch of N events whose sandbox responses are
well formed and with debug off, `successful_hits + failed_hits` equals N when
dry_run is true, and equals N plus the number of events that passed validation
but whose production send failed when dry_run is false. -/
theorem send_data_sum_amended (dest : Destination) (events : List EventRecord)
    (sandbox : Nat → SandboxResult) (prod : Nat → ProdResult) (dry_run : Bool)
    (wf : ∀ j, wellFormedB (sandbox j) = true) (hdbg : dest.debug = false) :
    sumHits (send_data dest events sandbox prod dry_run) =
      some (events.length +
        if dry_run then 0 else sendFailCount dest sandbox prod events.length) := by
  obtain ⟨valid, invalid, hres, hv, hinv, hlv, hlinv, hsf⟩ :=
    getValid_counts dest sandbox prod wf events
  have hsum : valid.length + invalid.length = events.length := by
    rw [hlv, hlinv]
    simp only [passCount, failCount]
    rw [countP_not_add, List.length_range]
  cases dry_run with
  | true =>
    simp only [send_data, hres]
    rw [if_pos trivial]
    simp [sumHits, mkRunResult, hsum]
  | false =>
    simp only [send_data, hres]
    rw [if_neg (by simp)]
    rw [sendStage_spec dest prod hdbg valid invalid]
    simp only [sumHits, mkRunResult, List.length_append, hsf]
    rw [hlv, hlinv, if_neg (by simp)]
    have := countP_not_add (passes sandbox) (List.range events.length)
    simp only [List.length_range] at this
    simp only [passCount, failCount, sendFailCount, Option.some.injEq]
    omega

/-- Witness for C1 (amended), at a concrete one-event batch with dry_run =
True. -/
theorem send_data_sum_amended_witness :
    sumHits (send_data destGtag [eventA] sandboxAllValid prodAll204 true) =
      some (1 + 0) :=
  send_data_sum_amended destGtag [eventA] sandboxAllValid prodAll204 true
    (fun _ => rfl) rfl

/-- Claim C2: with dry_run = False (debug off, well-formed sandbox responses),
`successful_hits` equals the number of events that passed sandbox validation —
including those whose production send later failed — and `failed_hits` equals
validation failures plus send failures; hence the two counters sum to N plus
the number of validated events whose send failed. -/
theorem send_data_hit_counts (dest : Destination) (events : List EventRecord)
    (sandbox : Nat → SandboxResult) (prod : Nat → ProdResult)
    (wf : ∀ j, wellFormedB (sandbox j) = true) (hdbg : dest.debug = false) :
    hitCounts (send_data dest events sandbox prod false) =
      some (passCount sandbox events.length,
        failCount sandbox events.length +
          sendFailCount dest sandbox prod events.length) ∧
    passCount sandbox events.length +
        (failCount sandbox events.length +
          sendFailCount dest sandbox prod events.length) =
      events.length + sendFailCount dest sandbox prod events.length := by
  obtain ⟨valid, invalid, hres, hv, hinv, hlv, hlinv, hsf⟩ :=
    getValid_counts dest sandbox prod wf events
  constructor
  · simp only [send_data, hres]
    rw [if_neg (by simp)]
    rw [sendStage_spec dest prod hdbg valid invalid]
    simp only [hitCounts, mkRunResult, List.length_append, hsf, hlv, hlinv]
  · have := countP_not_add (passes sandbox) (List.range events.length)
    simp only [List.length_range] at this
    simp only [passCount, failCount, sendFailCount]
    omega

/-- Witness for C2 at a concrete one-event batch whose send gets a 503. -/
theorem send_data_hit_counts_witness :
    hitCounts (send_data destGtag [eventA] sandboxAllValid prodAll503 false) =
      some (passCount sandboxAllValid 1,
        failCount sandboxAllValid 1 +
          sendFailCount destGtag sandboxAllValid prodAll503 1) ∧
    passCount sandboxAllValid 1 +
        (failCount sandboxAllValid 1 +
          sendFailCount destGtag sandboxAllValid prodAll503 1) =
      1 + sendFailCount destGtag sandboxAllValid prodAll503 1 :=
  send_data_hit_counts destGtag [eventA] sandboxAllValid prodAll503
    (fun _ => rfl) rfl

/-- Index views of the two lists returned by
`_get_valid_and_invalid_events`, or `none` when it raised. -/
def partitionIndices
    (o : Outcome (List (Nat × Payload) × List (Nat × ErrorNameIDMap))) :
    Option (List Nat × List Nat) :=
  match o with
  | .ok (valid, invalid) => some (valid.map Prod.fst, invalid.map Prod.fst)
  | _ => none

/-- Property stated by claim C3: the call returned two index lists whose
lengths sum to `n`, every index below `n` lies in exactly one of them, and
each list is strictly increasing (stable partition of input order). -/
def IsStablePartition (n : Nat) : Option (List Nat × List Nat) → Prop
  | some (v, w) =>
      v.length + w.length = n ∧
      (∀ j, j < n ↔ (j ∈ v ∨ j ∈ w)) ∧
      (∀ j, ¬(j ∈ v ∧ j ∈ w)) ∧
      v.Pairwise (· < ·) ∧ w.Pairwise (· < ·)
  | none => False

/-- Claim C3: for every batch of N events with well-formed sandbox responses,
the validation stage partitions the indices 0..N-1: the valid and invalid
lists have lengths summing to N, every original index appears in exactly one
of the two, and within each list indices appear in increasing input order. -/
theorem get_valid_invalid_partition (dest : Destination)
    (sandbox : Nat → SandboxResult) (events : List EventRecord)
    (wf : ∀ j, wellFormedB (sandbox j) = true) :
    IsStablePartition events.length
      (partitionIndices (get_valid_and_invalid_events dest sandbox 0 events)) := by
  obtain ⟨valid, invalid, hres, hv, hinv⟩ := getValid_spec dest sandbox wf events 0
  rw [← List.range_eq_range'] at hv hinv
  simp only [partitionIndices, hres]
  rw [IsStablePartition, hv, hinv]
  refine ⟨?_, ?_, ?_, ?_, ?_⟩
  · rw [← List.countP_eq_length_filter, ← List.countP_eq_length_filter,
      countP_not_add, List.length_range]
  · intro j
    simp only [List.mem_filter, List.mem_range]
    cases hp : passes sandbox j <;> simp [hp]
  · intro j
    simp only [List.mem_filter, List.mem_range]
    cases hp : passes sandbox j <;> simp [hp]
  · exact List.Pairwise.sublist (List.filter_sublist _) (List.pairwise_lt_range _)
  · exact List.Pairwise.sublist (List.filter_sublist _) (List.pairwise_lt_range _)

/-- Witness for C3 at a concrete one-event batch. -/
theorem get_valid_invalid_partition_witness :
    IsStablePartition 1
      (partitionIndices
        (get_valid_and_invalid_events destGtag sandboxAllValid 0 [eventA])) :=
  get_valid_invalid_partition destGtag sandboxAllValid [eventA] (fun _ => rfl)

/-- Claim C6 (code bug shown by evaluation): with the debug flag set,
`_send_payload` raises an uncaught `AttributeError` (the `self.log` attribute
is never assigned) instead of recording the request and returning success; it
does issue no network call. The non-debug branch behaves as the claim says:
2xx succeeds, other statuses and connection errors raise the retryable send
failure after a single POST. -/
theorem send_payload_debug_crash :
    send_payload destGtagDebug (.status 200) = .uncaught .attributeError ∧
    send_payload_postCount destGtagDebug = 0 ∧
    send_payload destGtag (.status 204) = .ok () ∧
    send_payload destGtag (.status 404) =
      .classified .RETRIABLE_GA_HOOK_ERROR_HTTP_ERROR ∧
    send_payload destGtag .connError =
      .classified .RETRIABLE_GA_HOOK_ERROR_HTTP_ERROR ∧
    send_payload_postCount destGtag = 1 := by
  decide

/-- Claim C7: with dry_run = True, `send_data` issues no POST to the
production ingestion endpoint, and the returned `successful_hits` equals the
number of events that passed sandbox validation (with `failed_hits` the
validation failures). -/
theorem send_data_dry_run_no_posts (dest : Destination) (events : List EventRecord)
    (sandbox : Nat → SandboxResult) (prod : Nat → ProdResult)
    (wf : ∀ j, wellFormedB (sandbox j) = true) :
    (send_data dest events sandbox prod true).snd = 0 ∧
    hitCounts (send_data dest events sandbox prod true) =
      some (passCount sandbox events.length, failCount sandbox events.length) := by
  obtain ⟨valid, invalid, hres, hv, hinv, hlv, hlinv, hsf⟩ :=
    getValid_counts dest sandbox prod wf events
  simp only [send_data, hres]
  rw [if_pos trivial]
  exact ⟨rfl, by simp [hitCounts, mkRunResult, hlv, hlinv]⟩

/-- Witness for C7 at a concrete one-event batch. -/
theorem send_data_dry_run_no_posts_witness :
    (send_data destGtag [eventA] sandboxAllValid prodAll503 true).snd = 0 ∧
    hitCounts (send_data destGtag [eventA] sandboxAllValid prodAll503 true) =
      some (passCount sandboxAllValid 1, failCount sandboxAllValid 1) :=
  send_data_dry_run_no_posts destGtag [eventA] sandboxAllValid prodAll503
    (fun _ => rfl)

/-- Claim C9 counterexample: when the sandbox answers 200 with a JSON body
that lacks the `validationMessages` key, the subscript in
`_parse_validate_result` raises `KeyError`, which no `except` clause catches —
the exception escapes `send_data` instead of being folded into the invalid
set. -/
theorem send_data_keyerror_counterexample :
    (send_data destGtag [eventA] sandboxMissingKey prodAll204 false).fst =
      .uncaught .keyError := by
  decide

/-- Claim C9 (amended): provided every 200 sandbox response body carries the
`validationMessages` key and the debug flag is off, all per-event classified
errors are caught inside `send_data` and folded into the invalid set, and no
exception escapes (the call returns a `RunResult`); configuration errors are
raised at `Destination` construction, before any network activity. -/
theorem send_data_no_escape_amended (dest : Destination) (events : List EventRecord)
    (sandbox : Nat → SandboxResult) (prod : Nat → ProdResult) (dry_run : Bool)
    (wf : ∀ j, wellFormedB (sandbox j) = true) (hdbg : dest.debug = false) :
    isOkOutcome (send_data dest events sandbox prod dry_run).fst = true := by
  obtain ⟨valid, invalid, hres, hv, hinv, hlv, hlinv, hsf⟩ :=
    getValid_counts dest sandbox prod wf events
  cases dry_run with
  | true => simp [send_data, hres, isOkOutcome]
  | false =>
    simp only [send_data, hres]
    rw [if_neg (by simp)]
    rw [sendStage_spec dest prod hdbg valid invalid]
    simp [isOkOutcome]

/-- Witness for C9 (amended) at a concrete one-event batch whose send fails
with 503 — the failure is folded in and the call still returns. -/
theorem send_data_no_escape_amended_witness :
    isOkOutcome (send_data destGtag [eventA] sandboxAllValid prodAll503 false).fst =
      true :=
  send_data_no_escape_amended destGtag [eventA] sandboxAllValid prodAll503 false
    (fun _ => rfl) rfl

/-- `AirflowClient._get_request` (clients.py lines 42-54), the retry loop
`while retries_left > 0 and response.status_code in status_forcelist`. The
oracle `get k` is the status code of the k-th GET issued (the pre-loop
request is number 0); `jitter k` is the `random.uniform(0, 1)` draw before
the k-th retry. Arguments of the recursion are `retries_left` and the number
of the response currently held; the result is the number of the response
that is returned and the list of `time.sleep` durations in order. -/
def get_request_loop (status_forcelist : List Nat)
    (backoff_in_seconds max_retries : Nat) (get : Nat → Nat) (jitter : Nat → ℚ) :
    Nat → Nat → Nat × List ℚ
  | 0, idx => (idx, [])
  | retries_left + 1, idx =>
    if get idx ∈ status_forcelist then
      let retries_tried := max_retries - (retries_left + 1)
      let sleep :=
        ((backoff_in_seconds * 2 ^ retries_tried : Nat) : ℚ) + jitter retries_tried
      let next := get_request_loop status_forcelist backoff_in_seconds max_retries
        get jitter retries_left (idx + 1)
      (next.fst, sleep :: next.snd)
    else (idx, [])

/-- `_get_request` entry point: first GET, then the loop with
`retries_left = max_retries` (Python defaults: `status_forcelist=[404]`,
`max_retries=3`, `backoff_in_seconds=1`). -/
def get_request (status_forcelist : List Nat) (max_retries backoff_in_seconds : Nat)
    (get : Nat → Nat) (jitter : Nat → ℚ) : Nat × List ℚ :=
  get_request_loop status_forcelist backoff_in_seconds max_retries get jitter
    max_retries 0

theorem get_request_loop_spec (fl : List Nat) (backoff maxR : Nat)
    (get : Nat → Nat) (jitter : Nat → ℚ) :
    ∀ (r idx : Nat), idx + r = maxR →
      idx ≤ (get_request_loop fl backoff maxR get jitter r idx).fst ∧
      (get_request_loop fl backoff maxR get jitter r idx).fst ≤ maxR ∧
      (get_request_loop fl backoff maxR get jitter r idx).snd =
        (List.range' idx ((get_request_loop fl backoff maxR get jitter r idx).fst - idx)).map
          (fun k => ((backoff * 2 ^ k : Nat) : ℚ) + jitter k) ∧
      (get (get_request_loop fl backoff maxR get jitter r idx).fst ∉ fl ∨
        (get_request_loop fl backoff maxR get jitter r idx).fst = maxR) := by
  intro r
  induction r with
  | zero =>
    intro idx h
    simp only [get_request_loop]
    exact ⟨Nat.le_refl idx, by omega, by simp, Or.inr (by omega)⟩
  | succ r ih =>
    intro idx h
    by_cases hmem : get idx ∈ fl
    · obtain ⟨h1, h2, h3, h4⟩ := ih (idx + 1) (by omega)
      have htried : maxR - (r + 1) = idx := by omega
      simp only [get_request_loop, if_pos hmem, htried]
      refine ⟨by omega, h2, ?_, h4⟩
      have hrange :
          (get_request_loop fl backoff maxR get jitter r (idx + 1)).fst - idx =
            ((get_request_loop fl backoff maxR get jitter r (idx + 1)).fst - (idx + 1)) + 1 := by
        omega
      rw [hrange, List.range'_succ, List.map_cons, h3]
    · simp only [get_request_loop, if_neg hmem]
      exact ⟨Nat.le_refl idx, by omega, by simp, Or.inl hmem⟩

/-- Claim C8: the poller performs at most `max_retries` retries — the number
of the returned response is at most `max_retries`, i.e. at most
`max_retries + 1` GETs happen; the recorded sleeps are exactly
`backoff * 2^k + jitter k` for `k = 0, 1, ...` (one per retry, in order), so
the pre-jitter waits form a non-decreasing sequence; and the last response
received is returned as-is, either because its status left the forcelist or
because the budget was exhausted — no error is raised on exhaustion. -/
theorem get_request_retry_spec (status_forcelist : List Nat)
    (max_retries backoff_in_seconds : Nat) (get : Nat → Nat) (jitter : Nat → ℚ) :
    (get_request status_forcelist max_retries backoff_in_seconds get jitter).fst ≤
      max_retries ∧
    (get_request status_forcelist max_retries backoff_in_seconds get jitter).snd =
      (List.range
          (get_request status_forcelist max_retries backoff_in_seconds get jitter).fst).map
        (fun k => ((backoff_in_seconds * 2 ^ k : Nat) : ℚ) + jitter k) ∧
    List.Chain' (· ≤ ·)
      ((List.range
          (get_request status_forcelist max_retries backoff_in_seconds get jitter).fst).map
        fun k => backoff_in_seconds * 2 ^ k) ∧
    (get (get_request status_forcelist max_retries backoff_in_seconds get jitter).fst ∉
        status_forcelist ∨
      (get_request status_forcelist max_retries backoff_in_seconds get jitter).fst =
        max_retries) := by
  obtain ⟨h1, h2, h3, h4⟩ :=
    get_request_loop_spec status_forcelist backoff_in_seconds max_retries get jitter
      max_retries 0 (by omega)
  refine ⟨?_, ?_, ?_, ?_⟩
  · exact h2
  · rw [get_request, h3, Nat.sub_zero, ← List.range_eq_range']
  · apply List.Pairwise.chain'
    rw [List.pairwise_map]
    refine (List.pairwise_lt_range _).imp ?_
    intro a b hab
    exact Nat.mul_le_mul_left backoff_in_seconds
      (Nat.pow_le_pow_right (by omega) (Nat.le_of_lt hab))
  · exact h4

/-- A dict of `RunResult` keyword fields, as produced by a successful
`ast.literal_eval` of the artifact value; missing keys fall back to the
dataclass defaults when splatted into `RunResult(**d)`. -/
structure RunResultDict where
  successful_hits : Option Nat
  failed_hits : Option Nat
  error_messages : Option (List String)
  dry_run : Option Bool
  deriving DecidableEq

/-- Python `RunResult(**d)` with the dataclass defaults of `utils.py`
(0, 0, [], False). -/
def runResultOfDict (d : RunResultDict) : RunResult :=
  { successful_hits := d.successful_hits.getD 0
    failed_hits := d.failed_hits.getD 0
    error_messages := d.error_messages.getD []
    dry_run := d.dry_run.getD false }

/-- The empty dict parsed from the `"{}"` fallback literal. -/
def emptyRunResultDict : RunResultDict :=
  { successful_hits := none, failed_hits := none, error_messages := none,
    dry_run := none }

/-- Classification of `run_result_json.get("value")` at line 132 of
`clients.py`: absent or falsy (Python `x or "{}"` then picks the literal
`"{}"`), present and parseable by `ast.literal_eval` into a dict of
`RunResult` fields, or present but not a parseable literal
(`ast.literal_eval` raises `ValueError`/`SyntaxError`). -/
inductive ArtifactValue
  | absent
  | parsesTo (d : RunResultDict)
  | unparseable
  deriving DecidableEq

/-- Lines 130-134 of `AirflowClient.list_dag_runs`:
`run_result = ast.literal_eval(run_result_json.get("value") or "{}")` followed
by `RunResult(**run_result)`. No try/except surrounds the call, so a raising
`literal_eval` propagates out of `list_dag_runs`. -/
def list_dag_runs_parse_result : ArtifactValue → Outcome RunResult
  | .absent => .ok (runResultOfDict emptyRunResultDict)
  | .parsesTo d => .ok (runResultOfDict d)
  | .unparseable => .uncaught .literalEvalError

/-- Claim C10 counterexample: a present but unparseable artifact value makes
`ast.literal_eval` raise, and `list_dag_runs` propagates the parse failure
instead of defaulting to an empty `RunResult`. -/
theorem parse_artifact_counterexample :
    list_dag_runs_parse_result .unparseable = .uncaught .literalEvalError ∧
    list_dag_runs_parse_result .unparseable ≠
      .ok { successful_hits := 0, failed_hits := 0, error_messages := [],
            dry_run := false } := by
  decide

/-- Claim C10 (amended): `list_dag_runs` parses the fetched artifact into a
`RunResult`, defaulting to an empty `RunResult` when the value is absent (or
empty); when the value is present but unparseable, the parse failure
propagates instead of being defaulted. -/
theorem parse_artifact_amended :
    list_dag_runs_parse_result .absent =
      .ok { successful_hits := 0, failed_hits := 0, error_messages := [],
            dry_run := false } ∧
    (∀ d, list_dag_runs_parse_result (.parsesTo d) = .ok (runResultOfDict d)) ∧
    list_dag_runs_parse_result .unparseable = .uncaught .literalEvalError :=
  ⟨rfl, fun _ => rfl, rfl⟩

end Tightlock
